import Mathlib

/-!
Shallow embedding of the zShield Pro GitHub action (`src/action.js`) and proofs
about the claims of its specification.  Pure functions of the source are
translated directly; the Node collaborators (axios, fs, glob, `@actions/core`,
`Buffer`, `JSON`) are modelled as explicit parameters or as values describing
the single response/effect the code observes, and effects (output exposure,
file writes) are made explicit in the return types.
-/

namespace ZShield

/- =========================
 JS values and objects.  Policy documents (`JSON.parse` results) are modelled
 as association lists of string keys; property read is first occurrence,
 property assignment (`req.teamId = ...`) updates the first occurrence or
 appends, as in a JS object where keys are unique.
 ========================= -/

inductive JVal where
  | str : String → JVal
  | bool : Bool → JVal
  | num : Int → JVal
deriving DecidableEq, Repr

abbrev JObj := List (String × JVal)

def getField (o : JObj) (k : String) : Option JVal :=
  match o with
  | [] => none
  | (k1, v1) :: rest => if k1 = k then some v1 else getField rest k

def setField (o : JObj) (k : String) (v : JVal) : JObj :=
  match o with
  | [] => [(k, v)]
  | (k1, v1) :: rest => if k1 = k then (k, v) :: rest else (k1, v1) :: setField rest k v

/- =========================
 `Array.prototype.join(sep)` as used for diagnostic listings.
 ========================= -/

def jsJoin (sep : String) : List String → String
  | [] => ""
  | [x] => x
  | x :: y :: rest => x ++ sep ++ jsJoin sep (y :: rest)

/- Substring test (JS `String.prototype.includes`), on character lists. -/

def listPrefixOf : List Char → List Char → Bool
  | [], _ => true
  | _ :: _, [] => false
  | a :: as, b :: bs => a = b && listPrefixOf as bs

def listContains : List Char → List Char → Bool
  | [], needle => needle.isEmpty
  | h :: rest, needle => listPrefixOf needle (h :: rest) || listContains rest needle

def strContains (s sub : String) : Bool :=
  listContains s.data sub.data

/- =========================
 Protection request builder (source lines 223-246).  `readFileSync` models
 `fs.readFileSync(path, 'utf8')` and `jsonParse` models a succeeding
 `JSON.parse`; the two action inputs are plain strings where `""` is the
 falsy "input not provided" value returned by `core.getInput`.
 ========================= -/

def defaultPolicyReq : JObj :=
  [("description", JVal.str "CI zShield Pro protection"),
   ("signatureVerification", JVal.bool false),
   ("staticDexEncryption", JVal.bool true),
   ("resourceEncryption", JVal.bool true),
   ("metadataEncryption", JVal.bool true),
   ("codeObfuscation", JVal.bool false),
   ("runtimeProtection", JVal.bool true),
   ("autoScanBuild", JVal.bool true)]

def buildProtectionRequest (readFileSync : String → String) (jsonParse : String → JObj)
    (protectionJsonFile protectionJsonInline : String) (teamId groupId : String) : JObj :=
  let req :=
    if protectionJsonFile ≠ "" then jsonParse (readFileSync protectionJsonFile)
    else if protectionJsonInline ≠ "" then jsonParse protectionJsonInline
    else defaultPolicyReq
  setField (setField req "teamId" (JVal.str teamId)) "groupId" (JVal.str groupId)

/- =========================
 Group lookup (source lines 190-218).  A `Group` is the projection of a
 group record the code reads: `id`, `name` and the optional `team` scope.
 ========================= -/

structure TeamRef where
  id : String
deriving DecidableEq, Repr

structure Group where
  id : String
  name : String
  team : Option TeamRef
deriving DecidableEq, Repr

def nameMatches (groups : List Group) (groupNameArg : String) : List Group :=
  groups.filter (fun g => g.name = groupNameArg)

/- `matches.filter(g => g.team && g.team.id === teamId)` -/
def teamScopedOf (ms : List Group) (teamId : String) : List Group :=
  ms.filter (fun g => match g.team with | some t => t.id = teamId | none => false)

/- `matches.filter(g => !g.team)` -/
def globalOf (ms : List Group) : List Group :=
  ms.filter (fun g => g.team.isNone)

def resolveGroupId (groups : List Group) (groupNameArg teamId : String) : Except String String :=
  let ms := nameMatches groups groupNameArg
  if ms.length = 0 then
    Except.error ("Group \"" ++ groupNameArg ++ "\" not found. Visible groups: "
      ++ jsJoin ", " (groups.map (fun g => g.name)))
  else
    match teamScopedOf ms teamId with
    | [g] => Except.ok g.id
    | _ :: _ :: _ =>
      Except.error ("Group \"" ++ groupNameArg ++ "\" is ambiguous within team " ++ teamId ++ ".")
    | [] =>
      match globalOf ms with
      | [g] => Except.ok g.id
      | _ :: _ :: _ =>
        Except.error ("Multiple global groups named \"" ++ groupNameArg ++ "\" found.")
      | [] =>
        Except.error ("Group \"" ++ groupNameArg ++ "\" exists but is not accessible for team "
          ++ teamId ++ ".")

/- =========================
 Credential cache (source lines 53-60 and 96-135).

 `base64UrlNormalize` is the pure normalization of `base64UrlDecodeToJson`
 (replace the base64url alphabet by the base64 one, then pad with `=` to a
 multiple of 4 of the original length).  The subsequent
 `Buffer.from(..., 'base64').toString('utf8')` plus `JSON.parse` are Node
 collaborators and are modelled by a parameter
 `bufferJsonDecode : String → Option JwtClaims`: `none` models a throwing
 `JSON.parse`, and `JwtClaims.exp = none` models a parsed claim set without
 a numeric `exp` property (in JS `claims.exp * 1000` is then `NaN`, so the
 freshness comparison is false).
 ========================= -/

structure JwtClaims where
  exp : Option Int
deriving DecidableEq, Repr

/- `String.prototype.split('.')` as used on the access token: split at every
 dot, keeping empty segments (`"a.b"` gives `["a", "b"]`, `""` gives
 `[""]`). -/

def splitCharAux (c : Char) : List Char → List Char → List String
  | [], acc => [String.mk acc.reverse]
  | ch :: rest, acc =>
    if ch = c then String.mk acc.reverse :: splitCharAux c rest []
    else splitCharAux c rest (ch :: acc)

def jsSplitChar (c : Char) (s : String) : List String :=
  splitCharAux c s.data []

def jsSplitDot (s : String) : List String :=
  jsSplitChar '.' s

def base64UrlNormalize (b64url : String) : String :=
  let replaced := String.map (fun c => if c = '-' then '+' else if c = '_' then '/' else c) b64url
  let target := ((b64url.length + 3) / 4) * 4
  replaced ++ String.mk (List.replicate (target - replaced.length) '=')

def base64UrlDecodeToJson (bufferJsonDecode : String → Option JwtClaims) (b64url : String) :
    Option JwtClaims :=
  bufferJsonDecode (base64UrlNormalize b64url)

/- The login response body (`resp.data`), projected to the only field the
 code reads.  `accessToken = ""` models a missing or empty (falsy) token
 field; a `none` body models a null response body. -/

structure LoginResp where
  accessToken : String
deriving DecidableEq, Repr

def stringifyLoginResp (r : LoginResp) : String :=
  "\x7b\"accessToken\":\"" ++ r.accessToken ++ "\"\x7d"

/- Outcome of one `loginHttpRequest()` call: the returned/thrown result, the
 state of the module-level `loginResponse` cache afterwards, and how many
 login POSTs were performed. -/

structure LoginOutcome where
  result : Except String LoginResp
  cache : Option LoginResp
  loginCalls : Nat
deriving Repr

/- The freshness check of source lines 101-114: returns the cached response
 when it holds a token whose second JWT segment decodes to claims with
 `Date.now() < claims.exp * 1000`, and `none` (meaning `expired = true`)
 otherwise — on a falsy token, fewer than two segments, a decode/parse
 failure, or a missing `exp`. -/

def cachedFreshCredential (bufferJsonDecode : String → Option JwtClaims) (now : Int)
    (loginResponse : Option LoginResp) : Option LoginResp :=
  match loginResponse with
  | none => none
  | some lr =>
    if lr.accessToken = "" then none
    else
      let parts := jsSplitDot lr.accessToken
      if 2 ≤ parts.length then
        match parts[1]? with
        | none => none
        | some seg =>
          match base64UrlDecodeToJson bufferJsonDecode seg with
          | none => none
          | some claims =>
            match claims.exp with
            | none => none
            | some e => if now < e * 1000 then some lr else none
      else none

/- `loginHttpRequest` (source lines 96-135).  `postRespData` is the body the
 login POST would return (`resp.data`); the POST itself is the single
 network call counted in `loginCalls`.  Note that the source assigns
 `loginResponse = resp.data` *before* validating the token field, so the
 cache holds the raw response even when the error is thrown. -/

def loginHttpRequest (bufferJsonDecode : String → Option JwtClaims) (now : Int)
    (postRespData : Option LoginResp) (loginResponse : Option LoginResp) : LoginOutcome :=
  match cachedFreshCredential bufferJsonDecode now loginResponse with
  | some lr => ⟨Except.ok lr, loginResponse, 0⟩
  | none =>
    match postRespData with
    | none => ⟨Except.error ("Login response missing accessToken: null"), none, 1⟩
    | some resp =>
      if resp.accessToken = "" then
        ⟨Except.error ("Login response missing accessToken: " ++ stringifyLoginResp resp),
          some resp, 1⟩
      else ⟨Except.ok resp, some resp, 1⟩

/- =========================
 Poll loop (source lines 277-306).

 A poll response (`GET /builds/{id}` body) projected to the two fields the
 loop reads.  `protectedUrl = ""` models a missing/null (falsy) field.
 `getBuild k` is the body returned by the (k+1)-th poll; the network and
 authentication underneath `getBuild` are collaborators.  Time is advanced
 by the `sleep` suspensions only (network time is not modelled), matching
 the loop condition `Date.now() - start < MAX_POLL_TIME`; `fuel` bounds the
 recursion and `outOfFuel` is a model artifact that cannot occur when
 `fuel` is large enough for the configured bound.
 ========================= -/

structure Build where
  state : String
  protectedUrl : String
deriving DecidableEq, Repr

def stringifyBuild (b : Build) : String :=
  "\x7b\"state\":\"" ++ b.state ++ "\",\"protectedUrl\":\"" ++ b.protectedUrl ++ "\"\x7d"

def buildFailMsg (b : Build) : String :=
  "zShield build failed: " ++ stringifyBuild b

def timeoutMsg (timeoutMinutes : Nat) : String :=
  "Timed out waiting for protected artifact after " ++ toString timeoutMinutes ++ " minutes."

inductive PollResult where
  | success : Build → PollResult
  | failed : String → PollResult
  | timedOut : String → PollResult
  | outOfFuel : PollResult
deriving DecidableEq, Repr

/- Trace of one `pollUntilProtected` run: its result, the number of
 `getBuild` polls performed, and the list of `sleep` durations (ms), in
 order. -/

structure PollTrace where
  result : PollResult
  polls : Nat
  sleeps : List Nat
deriving DecidableEq, Repr

def pollLoop (getBuild : Nat → Build) (statusPollTime maxPollTime timeoutMinutes : Nat) :
    Nat → Nat → Nat → List Nat → PollTrace
  | 0, now, polls, sleeps =>
    if now < maxPollTime then ⟨PollResult.outOfFuel, polls, sleeps.reverse⟩
    else ⟨PollResult.timedOut (timeoutMsg timeoutMinutes), polls, sleeps.reverse⟩
  | fuel + 1, now, polls, sleeps =>
    if now < maxPollTime then
      let b := getBuild polls
      if b.protectedUrl ≠ "" then ⟨PollResult.success b, polls + 1, sleeps.reverse⟩
      else if b.state = "FAILED" ∨ b.state = "ERROR" then
        ⟨PollResult.failed (buildFailMsg b), polls + 1, sleeps.reverse⟩
      else
        pollLoop getBuild statusPollTime maxPollTime timeoutMinutes fuel
          (now + statusPollTime) (polls + 1) (statusPollTime :: sleeps)
    else ⟨PollResult.timedOut (timeoutMsg timeoutMinutes), polls, sleeps.reverse⟩

/- `STATUS_POLL_TIME = pollIntervalSeconds * 1000` and
 `MAX_POLL_TIME = timeoutMinutes * 60 * 1000` (source lines 44-45). -/

def pollUntilProtected (getBuild : Nat → Build)
    (pollIntervalSeconds timeoutMinutes fuel : Nat) : PollTrace :=
  pollLoop getBuild (pollIntervalSeconds * 1000) (timeoutMinutes * 60 * 1000) timeoutMinutes
    fuel 0 0 []

/- =========================
 Download from the signed URL (source lines 330-367).

 The single axios GET is modelled by its observed response: status,
 `content-type` header (already defaulted to `""` as in
 `String(resp.headers?.['content-type'] || '')`), and body bytes.
 `bytesHeadString` models `Buffer.slice(0, n).toString('utf8')` for the
 diagnostic prefixes.  `writes` lists the `fs.writeFileSync` effects the
 call performed, in order.
 ========================= -/

structure HttpResponse where
  status : Nat
  contentType : String
  data : List Nat
deriving DecidableEq, Repr

def bytesHeadString (data : List Nat) (n : Nat) : String :=
  String.mk ((data.take n).map Char.ofNat)

/- `path.basename(p)`: the component after the last separator. -/
def jsPathBasename (p : String) : String :=
  match (jsSplitChar '/' p).getLast? with
  | some s => s
  | none => p

/- `path.extname(p)`: from the last dot of the basename, empty for a
 dotless name or a leading-dot-only name. -/
def jsPathExtname (p : String) : String :=
  let b := jsPathBasename p
  match jsSplitChar '.' b with
  | [] => ""
  | [_] => ""
  | ps =>
    if listPrefixOf ['.'] b.data = true ∧ ps.length = 2 then ""
    else
      match ps.getLast? with
      | some e => "." ++ e
      | none => ""

/- `path.basename(p, ext)`: basename with a trailing `ext` removed when it
 is a proper suffix. -/
def strEndsWith (s t : String) : Bool :=
  listPrefixOf t.data.reverse s.data.reverse

def strDropRight (s : String) (n : Nat) : String :=
  String.mk (s.data.take (s.data.length - n))

def jsPathBasenameExt (p ext : String) : String :=
  let b := jsPathBasename p
  if ext ≠ "" ∧ strEndsWith b ext = true ∧ b ≠ ext then strDropRight b ext.length else b

instance {ε α : Type} [DecidableEq ε] [DecidableEq α] : DecidableEq (Except ε α)
  | Except.error a, Except.error b =>
    if h : a = b then isTrue (by rw [h]) else isFalse (by intro he; cases he; exact h rfl)
  | Except.error _, Except.ok _ => isFalse (by intro h; cases h)
  | Except.ok _, Except.error _ => isFalse (by intro h; cases h)
  | Except.ok a, Except.ok b =>
    if h : a = b then isTrue (by rw [h]) else isFalse (by intro he; cases he; exact h rfl)

structure DownloadOutcome where
  result : Except String String
  writes : List (String × List Nat)
deriving DecidableEq, Repr

def downloadFromSignedUrl (outputFileInput : String) (inputFile : String)
    (resp : HttpResponse) : DownloadOutcome :=
  let baseName := jsPathBasenameExt inputFile (jsPathExtname inputFile)
  let outPath := if outputFileInput ≠ "" then outputFileInput
                 else baseName ++ "_zshield_protected.apk"
  let ct := resp.contentType
  if resp.status < 200 ∨ 300 ≤ resp.status then
    ⟨Except.error ("Signed URL download failed HTTP " ++ toString resp.status
        ++ " content-type=\"" ++ ct ++ "\". First bytes:\n" ++ bytesHeadString resp.data 500),
      []⟩
  else if strContains ct "text/html" then
    ⟨Except.error ("Signed URL returned HTML (not APK). First bytes:\n"
        ++ bytesHeadString resp.data 1000),
      []⟩
  else
    let data := resp.data
    if data.length < 4 ∨ data[0]? ≠ some 0x50 ∨ data[1]? ≠ some 0x4B then
      ⟨Except.error ("Downloaded file is not APK/ZIP. content-type=\"" ++ ct
          ++ "\" size=" ++ toString data.length ++ ". First bytes:\n"
          ++ bytesHeadString data 500),
        []⟩
    else ⟨Except.ok outPath, [(outPath, data)]⟩

/- =========================
 Main flow `run()` (source lines 372-412).

 The network stages that the claims do not inspect are modelled by the
 values they produce: `teamRes` is the outcome of `resolveTeamId` (its own
 listing call is a collaborator), `submitRespBuildId file req` is the
 `buildId` field of the `submitProtect` response (`""` models a falsy,
 missing field), `linkData` is the `GET /builds/{id}/protected` body, and
 `dlResp` is the signed-URL response consumed by `downloadFromSignedUrl`.
 `outputs` collects the `core.setOutput` effects in order.
 ========================= -/

def getMatchingFiles (files : List String) (pattern : String) : Except String (List String) :=
  if files.length = 0 then
    Except.error ("No files found matching pattern: " ++ pattern)
  else if 5 < files.length then
    Except.error ("Pattern matched " ++ toString files.length
      ++ " files, exceeds max 5. Narrow the pattern.")
  else Except.ok files

structure LinkData where
  name : String
  url : String
deriving DecidableEq, Repr

def stringifyLinkData (l : Option LinkData) : String :=
  match l with
  | none => "null"
  | some d => "\x7b\"name\":\"" ++ d.name ++ "\",\"url\":\"" ++ d.url ++ "\"\x7d"

structure RunEnv where
  appFilePattern : String
  files : List String
  teamRes : Except String String
  groups : List Group
  groupNameInput : String
  readFileSync : String → String
  jsonParse : String → JObj
  protectionJsonFile : String
  protectionJsonInline : String
  submitRespBuildId : String → JObj → String
  getBuild : Nat → Build
  linkData : Option LinkData
  dlResp : HttpResponse
  outputFileInput : String
  pollIntervalSeconds : Nat
  timeoutMinutes : Nat
  fuel : Nat

structure RunOutcome where
  result : Except String Unit
  outputs : List (String × String)
deriving DecidableEq, Repr

def run (env : RunEnv) : RunOutcome :=
  match getMatchingFiles env.files env.appFilePattern with
  | Except.error e => ⟨Except.error e, []⟩
  | Except.ok files =>
    if files.length ≠ 1 then
      ⟨Except.error ("app_file must resolve to exactly 1 file for zShield Pro. Matched: "
          ++ jsJoin ", " files), []⟩
    else
      let file := files.headD ""
      match env.teamRes with
      | Except.error e => ⟨Except.error e, []⟩
      | Except.ok teamId =>
        match resolveGroupId env.groups env.groupNameInput teamId with
        | Except.error e => ⟨Except.error e, []⟩
        | Except.ok groupId =>
          let protectionRequest := buildProtectionRequest env.readFileSync env.jsonParse
            env.protectionJsonFile env.protectionJsonInline teamId groupId
          let buildId := env.submitRespBuildId file protectionRequest
          if buildId = "" then
            ⟨Except.error "Protect response missing buildId: (response body elided)", []⟩
          else
            let outs := [("build_id", buildId)]
            match (pollUntilProtected env.getBuild env.pollIntervalSeconds
                env.timeoutMinutes env.fuel).result with
            | PollResult.failed e => ⟨Except.error e, outs⟩
            | PollResult.timedOut e => ⟨Except.error e, outs⟩
            | PollResult.outOfFuel => ⟨Except.error "model artifact: out of fuel", outs⟩
            | PollResult.success _ =>
              match env.linkData with
              | none =>
                ⟨Except.error ("Unexpected /protected response: " ++ stringifyLinkData none),
                  outs⟩
              | some link =>
                if link.url = "" then
                  ⟨Except.error ("Unexpected /protected response: "
                      ++ stringifyLinkData (some link)), outs⟩
                else
                  let dl := downloadFromSignedUrl env.outputFileInput file env.dlResp
                  match dl.result with
                  | Except.error e => ⟨Except.error e, outs⟩
                  | Except.ok protectedPath =>
                    ⟨Except.ok (), outs ++ [("protected_file", protectedPath)]⟩

/- Concrete environments exercising each stage of `run` at which a run can
 stop.  All share one artifact `app.apk`, team `t1`, a team-scoped group
 `g1`, submission returning build id `b1`, a valid download link, and an
 explicit output path; they differ only in the stage made to fail.  Field
 order: pattern, files, teamRes, groups, groupNameInput, readFileSync,
 jsonParse, protectionJsonFile, protectionJsonInline, submitRespBuildId,
 getBuild, linkData, dlResp, outputFileInput, pollIntervalSeconds,
 timeoutMinutes, fuel. -/

def c4EnvPre : RunEnv :=
  ⟨"*.apk", [], Except.ok "t1", [⟨"g1", "G", some ⟨"t1"⟩⟩], "G",
    fun _ => "", fun _ => [], "", "", fun _ _ => "b1",
    fun _ => ⟨"DONE", "https://d"⟩, some ⟨"n", "https://u"⟩,
    ⟨200, "application/octet-stream", [0x50, 0x4B, 3, 4]⟩, "out.apk", 15, 60, 5⟩

def c4EnvNoBuildId : RunEnv :=
  ⟨"*.apk", ["app.apk"], Except.ok "t1", [⟨"g1", "G", some ⟨"t1"⟩⟩], "G",
    fun _ => "", fun _ => [], "", "", fun _ _ => "",
    fun _ => ⟨"DONE", "https://d"⟩, some ⟨"n", "https://u"⟩,
    ⟨200, "application/octet-stream", [0x50, 0x4B, 3, 4]⟩, "out.apk", 15, 60, 5⟩

def c4EnvPollFail : RunEnv :=
  ⟨"*.apk", ["app.apk"], Except.ok "t1", [⟨"g1", "G", some ⟨"t1"⟩⟩], "G",
    fun _ => "", fun _ => [], "", "", fun _ _ => "b1",
    fun _ => ⟨"FAILED", ""⟩, some ⟨"n", "https://u"⟩,
    ⟨200, "application/octet-stream", [0x50, 0x4B, 3, 4]⟩, "out.apk", 15, 60, 5⟩

def c4EnvDlFail : RunEnv :=
  ⟨"*.apk", ["app.apk"], Except.ok "t1", [⟨"g1", "G", some ⟨"t1"⟩⟩], "G",
    fun _ => "", fun _ => [], "", "", fun _ _ => "b1",
    fun _ => ⟨"DONE", "https://d"⟩, some ⟨"n", "https://u"⟩,
    ⟨200, "application/octet-stream", [1, 2, 3, 4, 5]⟩, "out.apk", 15, 60, 5⟩

def c4EnvOk : RunEnv :=
  ⟨"*.apk", ["app.apk"], Except.ok "t1", [⟨"g1", "G", some ⟨"t1"⟩⟩], "G",
    fun _ => "", fun _ => [], "", "", fun _ _ => "b1",
    fun _ => ⟨"DONE", "https://d"⟩, some ⟨"n", "https://u"⟩,
    ⟨200, "application/octet-stream", [0x50, 0x4B, 3, 4]⟩, "out.apk", 15, 60, 5⟩

/- =========================
 Helper lemmas about substring containment and joined listings.
 ========================= -/

theorem listPrefixOf_append (a t : List Char) : listPrefixOf a (a ++ t) = true := by
  induction a with
  | nil => simp [listPrefixOf]
  | cons c cs ih => simp [listPrefixOf, ih]

theorem listContains_nil_needle (hay : List Char) : listContains hay [] = true := by
  cases hay with
  | nil => simp [listContains, List.isEmpty]
  | cons h rest => simp [listContains, listPrefixOf]

theorem listContains_self_append (x r : List Char) : listContains (x ++ r) x = true := by
  cases x with
  | nil => simpa using listContains_nil_needle r
  | cons c cs =>
    have h := listPrefixOf_append (c :: cs) r
    simp only [listContains, List.cons_append, Bool.or_eq_true]
    exact Or.inl (by simpa using h)

theorem listContains_append_right (p t n : List Char) (h : listContains t n = true) :
    listContains (p ++ t) n = true := by
  induction p with
  | nil => simpa using h
  | cons c cs ih => simp [listContains, ih]

theorem strContains_jsJoin (l : List String) (x : String) (hx : x ∈ l) :
    strContains (jsJoin ", " l) x = true := by
  induction l with
  | nil => cases hx
  | cons y ys ih =>
    cases ys with
    | nil =>
      have hxy : x = y := by simpa using hx
      subst hxy
      have := listContains_self_append x.data []
      simpa [strContains, jsJoin] using this
    | cons z zs =>
      rcases List.mem_cons.mp hx with hxy | hxs
      · subst hxy
        have := listContains_self_append x.data ((", " : String).data ++ (jsJoin ", " (z :: zs)).data)
        simpa [strContains, jsJoin, String.data_append, List.append_assoc] using this
      · have ht := ih hxs
        have := listContains_append_right (y.data ++ (", " : String).data)
          (jsJoin ", " (z :: zs)).data x.data (by simpa [strContains] using ht)
        simpa [strContains, jsJoin, String.data_append, List.append_assoc] using this

theorem strContains_append_right (p t n : String) (h : strContains t n = true) :
    strContains (p ++ t) n = true := by
  have := listContains_append_right p.data t.data n.data (by simpa [strContains] using h)
  simpa [strContains, String.data_append] using this

/- =========================
 Lemmas about JS object field assignment.
 ========================= -/

theorem getField_setField_same (o : JObj) (k : String) (v : JVal) :
    getField (setField o k v) k = some v := by
  induction o with
  | nil => simp [setField, getField]
  | cons hd tl ih =>
    obtain ⟨k1, v1⟩ := hd
    by_cases h : k1 = k
    · subst h
      simp [setField, getField]
    · simp [setField, getField, h, ih]

theorem getField_setField_other (o : JObj) (k k' : String) (v : JVal) (h : k' ≠ k) :
    getField (setField o k v) k' = getField o k' := by
  have hkk : ¬ k = k' := fun he => h he.symm
  induction o with
  | nil => simp [setField, getField, hkk]
  | cons hd tl ih =>
    obtain ⟨k1, v1⟩ := hd
    by_cases h1 : k1 = k
    · subst h1
      simp [setField, getField, hkk]
    · by_cases h2 : k1 = k'
      · subst h2
        simp [setField, getField, h1]
      · simp [setField, getField, h1, h2, ih]

/- =========================
 Claim theorems.
 ========================= -/

/-- Claim C9: for every call to the builder, whatever source document is
chosen (inline, file, or default) and whatever same-named fields it
contains, the resulting protection request has `teamId` and `groupId` equal
to the builder's arguments — both fields are unconditionally overwritten
after parsing. -/
theorem c9_ids_always_overwritten (readFileSync : String → String)
    (jsonParse : String → JObj) (protectionJsonFile protectionJsonInline : String)
    (teamId groupId : String) :
    getField (buildProtectionRequest readFileSync jsonParse protectionJsonFile
        protectionJsonInline teamId groupId) "teamId" = some (JVal.str teamId)
  ∧ getField (buildProtectionRequest readFileSync jsonParse protectionJsonFile
        protectionJsonInline teamId groupId) "groupId" = some (JVal.str groupId) := by
  unfold buildProtectionRequest
  constructor
  · rw [getField_setField_other _ _ _ _ (by decide)]
    exact getField_setField_same _ _ _
  · exact getField_setField_same _ _ _

/-- Claim C1 (refuted as stated; the code contradicts the action's own
README, which documents inline-over-file precedence): when both an inline
policy document and a file-path policy document are supplied, the builder
parses and uses the FILE document as the base of the resulting protection
request, not the inline one.  Here the file path reads to a document tagged
`"file"` and the inline input parses to a document tagged `"inline"`, and
the result carries the file tag. -/
theorem c1_file_wins_over_inline :
    getField (buildProtectionRequest
        (fun _ => "FILECONTENT")
        (fun s => if s = "FILECONTENT" then [("source", JVal.str "file")]
                  else [("source", JVal.str "inline")])
        "policy.json" "inline-json" "t1" "g1") "source"
      = some (JVal.str "file") := by
  decide

/-- Claim C2: group resolution applies two-tier precedence.  Among
exact-name matches: exactly one team-scoped match is returned; more than
one team-scoped match is a fatal ambiguity error; only when no team-scoped
match exists is a global (unscoped) match considered — returned if exactly
one, fatal ambiguity error if more than one; zero name matches is an error
whose message lists every visible group name; and when name matches exist
but neither tier yields one, resolution fails rather than guessing a first
match. -/
theorem c2_group_resolution_precedence (groups : List Group) (gname teamId : String) :
    (nameMatches groups gname = [] →
       ∃ e, resolveGroupId groups gname teamId = Except.error e
         ∧ ∀ g ∈ groups, strContains e g.name = true)
  ∧ (∀ g, teamScopedOf (nameMatches groups gname) teamId = [g] →
       resolveGroupId groups gname teamId = Except.ok g.id)
  ∧ (∀ g1 g2 rest, teamScopedOf (nameMatches groups gname) teamId = g1 :: g2 :: rest →
       ∃ e, resolveGroupId groups gname teamId = Except.error e)
  ∧ (teamScopedOf (nameMatches groups gname) teamId = [] →
       ∀ g, globalOf (nameMatches groups gname) = [g] →
         resolveGroupId groups gname teamId = Except.ok g.id)
  ∧ (teamScopedOf (nameMatches groups gname) teamId = [] →
       ∀ g1 g2 rest, globalOf (nameMatches groups gname) = g1 :: g2 :: rest →
         ∃ e, resolveGroupId groups gname teamId = Except.error e)
  ∧ (nameMatches groups gname ≠ [] →
       teamScopedOf (nameMatches groups gname) teamId = [] →
       globalOf (nameMatches groups gname) = [] →
       ∃ e, resolveGroupId groups gname teamId = Except.error e) := by
  refine ⟨?_, ?_, ?_, ?_, ?_, ?_⟩
  · intro hms
    refine ⟨"Group \"" ++ gname ++ "\" not found. Visible groups: "
        ++ jsJoin ", " (groups.map (fun g => g.name)), ?_, ?_⟩
    · simp [resolveGroupId, hms]
    · intro g hg
      exact strContains_append_right _ _ _
        (strContains_jsJoin _ _ (List.mem_map_of_mem (fun g => g.name) hg))
  · intro g hsc
    have hne : nameMatches groups gname ≠ [] := by
      intro h0
      rw [h0] at hsc
      simp [teamScopedOf] at hsc
    have hlen : ¬ (nameMatches groups gname).length = 0 := by
      simpa [List.length_eq_zero] using hne
    simp [resolveGroupId, hlen, hsc]
  · intro g1 g2 rest hsc
    have hne : nameMatches groups gname ≠ [] := by
      intro h0
      rw [h0] at hsc
      simp [teamScopedOf] at hsc
    have hlen : ¬ (nameMatches groups gname).length = 0 := by
      simpa [List.length_eq_zero] using hne
    exact ⟨"Group \"" ++ gname ++ "\" is ambiguous within team " ++ teamId ++ ".",
      by simp [resolveGroupId, hlen, hsc]⟩
  · intro hsc g hgl
    have hne : nameMatches groups gname ≠ [] := by
      intro h0
      rw [h0] at hgl
      simp [globalOf] at hgl
    have hlen : ¬ (nameMatches groups gname).length = 0 := by
      simpa [List.length_eq_zero] using hne
    simp [resolveGroupId, hlen, hsc, hgl]
  · intro hsc g1 g2 rest hgl
    have hne : nameMatches groups gname ≠ [] := by
      intro h0
      rw [h0] at hgl
      simp [globalOf] at hgl
    have hlen : ¬ (nameMatches groups gname).length = 0 := by
      simpa [List.length_eq_zero] using hne
    exact ⟨"Multiple global groups named \"" ++ gname ++ "\" found.",
      by simp [resolveGroupId, hlen, hsc, hgl]⟩
  · intro hne hsc hgl
    have hlen : ¬ (nameMatches groups gname).length = 0 := by
      simpa [List.length_eq_zero] using hne
    exact ⟨"Group \"" ++ gname ++ "\" exists but is not accessible for team " ++ teamId ++ ".",
      by simp [resolveGroupId, hlen, hsc, hgl]⟩

/-- Witness for C2: the claim's theorem applied at concrete listings — a
team-scoped match beats a same-named global one; two team-scoped matches
are fatal; a single global match is used when no team-scoped one exists;
two global matches are fatal; zero name matches yields an error listing
every visible name; and a match scoped to a different team is an error. -/
theorem c2_group_resolution_precedence_witness :
    (∃ e, resolveGroupId [⟨"1", "A", none⟩, ⟨"2", "B", none⟩] "G" "T" = Except.error e
       ∧ ∀ g ∈ [(⟨"1", "A", none⟩ : Group), ⟨"2", "B", none⟩], strContains e g.name = true)
  ∧ resolveGroupId [⟨"1", "G", some ⟨"T"⟩⟩, ⟨"2", "G", none⟩] "G" "T" = Except.ok "1"
  ∧ (∃ e, resolveGroupId [⟨"1", "G", some ⟨"T"⟩⟩, ⟨"3", "G", some ⟨"T"⟩⟩] "G" "T"
       = Except.error e)
  ∧ resolveGroupId [⟨"2", "G", none⟩] "G" "T" = Except.ok "2"
  ∧ (∃ e, resolveGroupId [⟨"2", "G", none⟩, ⟨"5", "G", none⟩] "G" "T" = Except.error e)
  ∧ (∃ e, resolveGroupId [⟨"6", "G", some ⟨"U"⟩⟩] "G" "T" = Except.error e) :=
  ⟨(c2_group_resolution_precedence [⟨"1", "A", none⟩, ⟨"2", "B", none⟩] "G" "T").1
      (by decide),
   (c2_group_resolution_precedence [⟨"1", "G", some ⟨"T"⟩⟩, ⟨"2", "G", none⟩] "G" "T").2.1
      ⟨"1", "G", some ⟨"T"⟩⟩ (by decide),
   (c2_group_resolution_precedence [⟨"1", "G", some ⟨"T"⟩⟩, ⟨"3", "G", some ⟨"T"⟩⟩]
      "G" "T").2.2.1 ⟨"1", "G", some ⟨"T"⟩⟩ ⟨"3", "G", some ⟨"T"⟩⟩ [] (by decide),
   (c2_group_resolution_precedence [⟨"2", "G", none⟩] "G" "T").2.2.2.1 (by decide)
      ⟨"2", "G", none⟩ (by decide),
   (c2_group_resolution_precedence [⟨"2", "G", none⟩, ⟨"5", "G", none⟩] "G" "T").2.2.2.2.1
      (by decide) ⟨"2", "G", none⟩ ⟨"5", "G", none⟩ [] (by decide),
   (c2_group_resolution_precedence [⟨"6", "G", some ⟨"U"⟩⟩] "G" "T").2.2.2.2.2
      (by decide) (by decide) (by decide)⟩

theorem lt_length_of_getElem?_some {α : Type} :
    ∀ (l : List α) (i : Nat) (a : α), l[i]? = some a → i < l.length
  | [], _, _, h => by simp at h
  | _ :: _, 0, _, _ => by simp
  | _ :: xs, i + 1, a, h => by
    have := lt_length_of_getElem?_some xs i a (by simpa using h)
    simp only [List.length_cons]
    omega

/- Any call that reaches the login POST performs exactly one login call,
 whatever the response body is. -/
theorem loginCalls_one_of_stale (bufferJsonDecode : String → Option JwtClaims) (now : Int)
    (postRespData loginResponse : Option LoginResp)
    (h : cachedFreshCredential bufferJsonDecode now loginResponse = none) :
    (loginHttpRequest bufferJsonDecode now postRespData loginResponse).loginCalls = 1 := by
  unfold loginHttpRequest
  rw [h]
  cases postRespData with
  | none => rfl
  | some resp =>
    by_cases ha : resp.accessToken = ""
    · simp [ha]
    · simp [ha]

/-- Claim C6: a cached credential whose token's second segment decodes
(base64url, padded to a multiple of 4 — `base64UrlNormalize` — then decoded
by the Buffer/JSON collaborator `bufferJsonDecode`) to a claim set with
`now < exp * 1000` is returned unchanged with zero network calls; a cached
credential whose decoded expiry is past, or whose token is malformed
(fewer than two segments, or a failing decode) or missing the `exp` field,
causes exactly one login call. -/
theorem c6_credential_freshness (bufferJsonDecode : String → Option JwtClaims) (now : Int)
    (postRespData : Option LoginResp) (lr : LoginResp) :
    ((∃ seg e, lr.accessToken ≠ ""
        ∧ (jsSplitDot lr.accessToken)[1]? = some seg
        ∧ bufferJsonDecode (base64UrlNormalize seg) = some ⟨some e⟩
        ∧ now < e * 1000) →
      loginHttpRequest bufferJsonDecode now postRespData (some lr)
        = ⟨Except.ok lr, some lr, 0⟩)
  ∧ ((lr.accessToken ≠ ""
      ∧ ((jsSplitDot lr.accessToken).length < 2
         ∨ ∃ seg, (jsSplitDot lr.accessToken)[1]? = some seg
             ∧ (bufferJsonDecode (base64UrlNormalize seg) = none
                ∨ bufferJsonDecode (base64UrlNormalize seg) = some ⟨none⟩
                ∨ ∃ e, bufferJsonDecode (base64UrlNormalize seg) = some ⟨some e⟩
                    ∧ e * 1000 ≤ now))) →
      (loginHttpRequest bufferJsonDecode now postRespData (some lr)).loginCalls = 1) := by
  constructor
  · rintro ⟨seg, e, htok, hseg, hdec, hexp⟩
    have hlen : 2 ≤ (jsSplitDot lr.accessToken).length := by
      have := lt_length_of_getElem?_some _ _ _ hseg
      omega
    have hfresh : cachedFreshCredential bufferJsonDecode now (some lr) = some lr := by
      simp [cachedFreshCredential, htok, hlen, hseg, base64UrlDecodeToJson, hdec, hexp]
    unfold loginHttpRequest
    rw [hfresh]
  · rintro ⟨htok, hstale⟩
    apply loginCalls_one_of_stale
    rcases hstale with hshort | ⟨seg, hseg, hdec⟩
    · have : ¬ 2 ≤ (jsSplitDot lr.accessToken).length := by omega
      simp [cachedFreshCredential, htok, this]
    · have hlen : 2 ≤ (jsSplitDot lr.accessToken).length := by
        have := lt_length_of_getElem?_some _ _ _ hseg
        omega
      rcases hdec with hnone | hnoexp | ⟨e, hsome, hpast⟩
      · simp [cachedFreshCredential, htok, hlen, hseg, base64UrlDecodeToJson, hnone]
      · simp [cachedFreshCredential, htok, hlen, hseg, base64UrlDecodeToJson, hnoexp]
      · have : ¬ now < e * 1000 := by omega
        simp [cachedFreshCredential, htok, hlen, hseg, base64UrlDecodeToJson, hsome, this]

/-- Witness for C6: with a decoder mapping every payload to `exp = 2`, the
cached token `"a.b"` is fresh at `now = 1000` (no network call, cache and
result unchanged) and stale at `now = 2000` (exactly one login call). -/
theorem c6_credential_freshness_witness :
    loginHttpRequest (fun _ => some ⟨some 2⟩) 1000 none (some ⟨"a.b"⟩)
      = ⟨Except.ok ⟨"a.b"⟩, some ⟨"a.b"⟩, 0⟩
  ∧ (loginHttpRequest (fun _ => some ⟨some 2⟩) 2000 (some ⟨"x.y"⟩) (some ⟨"a.b"⟩)).loginCalls
      = 1 :=
  ⟨(c6_credential_freshness (fun _ => some ⟨some 2⟩) 1000 none ⟨"a.b"⟩).1
      ⟨"b", 2, by decide, by decide, rfl, by decide⟩,
   (c6_credential_freshness (fun _ => some ⟨some 2⟩) 2000 (some ⟨"x.y"⟩) ⟨"a.b"⟩).2
      ⟨by decide, Or.inr ⟨"b", by decide, Or.inr (Or.inr ⟨2, rfl, by decide⟩)⟩⟩⟩

/-- Claim C5 (refuted as stated): the source assigns the raw login response
to the cache before validating it, so a login response lacking the
access-token field does fail the attempt, but the cached credential state
is NOT left unchanged — here a cache holding an (expired) credential with
token `"old"` ends up holding the invalid empty-token response instead. -/
theorem c5_invalid_login_mutates_cache :
    (loginHttpRequest (fun _ => none) 0 (some ⟨""⟩) (some ⟨"old"⟩)).cache
        ≠ some ⟨"old"⟩
  ∧ ∃ e, (loginHttpRequest (fun _ => none) 0 (some ⟨""⟩) (some ⟨"old"⟩)).result
        = Except.error e := by
  constructor
  · decide
  · exact ⟨"Login response missing accessToken: " ++ stringifyLoginResp ⟨""⟩, by decide⟩

/-- Claim C5 as amended: every login attempt that reaches the network
overwrites the cached credential with the raw response body before
validating it; an invalid response (null body or missing access-token
field) fails the attempt while leaving that invalid response in the cache,
and only the fresh-token path leaves the cache unchanged. -/
theorem c5_cache_overwritten_before_validation (bufferJsonDecode : String → Option JwtClaims)
    (now : Int) (postRespData loginResponse : Option LoginResp) :
    ((cachedFreshCredential bufferJsonDecode now loginResponse = none →
        (loginHttpRequest bufferJsonDecode now postRespData loginResponse).cache = postRespData
      ∧ ((postRespData = none ∨ ∃ r, postRespData = some r ∧ r.accessToken = "") →
          ∃ e, (loginHttpRequest bufferJsonDecode now postRespData loginResponse).result
            = Except.error e))
  ∧ (∀ lr, cachedFreshCredential bufferJsonDecode now loginResponse = some lr →
      loginHttpRequest bufferJsonDecode now postRespData loginResponse
        = ⟨Except.ok lr, loginResponse, 0⟩)) := by
  constructor
  · intro hstale
    constructor
    · unfold loginHttpRequest
      rw [hstale]
      cases postRespData with
      | none => rfl
      | some resp =>
        by_cases ha : resp.accessToken = ""
        · simp [ha]
        · simp [ha]
    · rintro (hnone | ⟨r, hr, ha⟩)
      · subst hnone
        unfold loginHttpRequest
        rw [hstale]
        exact ⟨_, rfl⟩
      · subst hr
        unfold loginHttpRequest
        rw [hstale]
        simp [ha]
  · intro lr hfresh
    unfold loginHttpRequest
    rw [hfresh]

/-- Witness for C5's amended theorem: with a stale cache (malformed token
`"old"`), a login returning an empty-token body leaves that body in the
cache and errors; a fresh cache (token `"a.b"`, `exp = 2`, `now = 1000`)
is returned unchanged. -/
theorem c5_cache_overwritten_before_validation_witness :
    ((loginHttpRequest (fun _ => none) 0 (some ⟨""⟩) (some ⟨"old"⟩)).cache = some ⟨""⟩
      ∧ ∃ e, (loginHttpRequest (fun _ => none) 0 (some ⟨""⟩) (some ⟨"old"⟩)).result
          = Except.error e)
  ∧ loginHttpRequest (fun _ => some ⟨some 2⟩) 1000 (some ⟨""⟩) (some ⟨"a.b"⟩)
      = ⟨Except.ok ⟨"a.b"⟩, some ⟨"a.b"⟩, 0⟩ :=
  ⟨⟨((c5_cache_overwritten_before_validation (fun _ => none) 0 (some ⟨""⟩)
        (some ⟨"old"⟩)).1 (by decide)).1,
    ((c5_cache_overwritten_before_validation (fun _ => none) 0 (some ⟨""⟩)
        (some ⟨"old"⟩)).1 (by decide)).2 (Or.inr ⟨⟨""⟩, rfl, rfl⟩)⟩,
   (c5_cache_overwritten_before_validation (fun _ => some ⟨some 2⟩) 1000 (some ⟨""⟩)
        (some ⟨"a.b"⟩)).2 ⟨"a.b"⟩ (by decide)⟩

/- =========================
 Poll-loop stepping lemmas.
 ========================= -/

theorem pollLoop_stop (getBuild : Nat → Build) (I M tm now polls : Nat) (sleeps : List Nat)
    (h : ¬ now < M) (fuel : Nat) :
    pollLoop getBuild I M tm fuel now polls sleeps
      = ⟨PollResult.timedOut (timeoutMsg tm), polls, sleeps.reverse⟩ := by
  cases fuel with
  | zero => simp [pollLoop, h]
  | succ f => simp [pollLoop, h]

theorem pollLoop_succ_success (getBuild : Nat → Build) (I M tm f now polls : Nat)
    (sleeps : List Nat) (hnow : now < M) (hurl : (getBuild polls).protectedUrl ≠ "") :
    pollLoop getBuild I M tm (f + 1) now polls sleeps
      = ⟨PollResult.success (getBuild polls), polls + 1, sleeps.reverse⟩ := by
  simp [pollLoop, hnow, hurl]

theorem pollLoop_succ_failed (getBuild : Nat → Build) (I M tm f now polls : Nat)
    (sleeps : List Nat) (hnow : now < M) (hurl : (getBuild polls).protectedUrl = "")
    (hterm : (getBuild polls).state = "FAILED" ∨ (getBuild polls).state = "ERROR") :
    pollLoop getBuild I M tm (f + 1) now polls sleeps
      = ⟨PollResult.failed (buildFailMsg (getBuild polls)), polls + 1, sleeps.reverse⟩ := by
  simp [pollLoop, hnow, hurl, hterm]

theorem pollLoop_succ_nonterminal (getBuild : Nat → Build) (I M tm f now polls : Nat)
    (sleeps : List Nat) (hnow : now < M) (hurl : (getBuild polls).protectedUrl = "")
    (hsf : (getBuild polls).state ≠ "FAILED") (hse : (getBuild polls).state ≠ "ERROR") :
    pollLoop getBuild I M tm (f + 1) now polls sleeps
      = pollLoop getBuild I M tm f (now + I) (polls + 1) (I :: sleeps) := by
  simp [pollLoop, hnow, hurl, hsf, hse]

theorem pollLoop_steps (getBuild : Nat → Build) (I M tm : Nat) :
    ∀ (n fuel now polls : Nat) (sleeps : List Nat),
      (∀ k, k < n → (getBuild (polls + k)).protectedUrl = ""
          ∧ (getBuild (polls + k)).state ≠ "FAILED"
          ∧ (getBuild (polls + k)).state ≠ "ERROR") →
      (∀ k, k < n → now + k * I < M) →
      n ≤ fuel →
      pollLoop getBuild I M tm fuel now polls sleeps
        = pollLoop getBuild I M tm (fuel - n) (now + n * I) (polls + n)
            (List.replicate n I ++ sleeps) := by
  intro n
  induction n with
  | zero => intro fuel now polls sleeps _ _ _; simp
  | succ n ih =>
    intro fuel now polls sleeps h1 h2 h3
    obtain ⟨f, rfl⟩ : ∃ f, fuel = f + 1 := ⟨fuel - 1, by omega⟩
    have hnow : now < M := by
      have := h2 0 (by omega)
      simpa using this
    have hb := h1 0 (by omega)
    rw [Nat.add_zero] at hb
    rw [pollLoop_succ_nonterminal getBuild I M tm f now polls sleeps hnow hb.1 hb.2.1 hb.2.2]
    rw [ih f (now + I) (polls + 1) (I :: sleeps)
      (fun k hk => by
        have := h1 (k + 1) (by omega)
        have harg : polls + (k + 1) = polls + 1 + k := by omega
        rw [harg] at this
        exact this)
      (fun k hk => by
        have := h2 (k + 1) (by omega)
        have harg : now + (k + 1) * I = now + I + k * I := by ring
        rw [harg] at this
        exact this)
      (by omega)]
    have e1 : f + 1 - (n + 1) = f - n := by omega
    have e2 : now + (n + 1) * I = now + I + n * I := by ring
    have e3 : polls + (n + 1) = polls + 1 + n := by omega
    have e4 : List.replicate (n + 1) I ++ sleeps = List.replicate n I ++ (I :: sleeps) := by
      simp [List.replicate_succ', List.append_assoc]
    rw [e1, e2, e3, e4]

theorem pollLoop_timeout_all_nonterminal (getBuild : Nat → Build) (I M tm : Nat)
    (hrun : ∀ k, (getBuild k).protectedUrl = ""
        ∧ (getBuild k).state ≠ "FAILED" ∧ (getBuild k).state ≠ "ERROR") :
    ∀ (fuel now polls : Nat) (sleeps : List Nat), M ≤ now + fuel * I →
      (pollLoop getBuild I M tm fuel now polls sleeps).result
        = PollResult.timedOut (timeoutMsg tm) := by
  intro fuel
  induction fuel with
  | zero =>
    intro now polls sleeps hM
    rw [pollLoop_stop getBuild I M tm now polls sleeps (by omega) 0]
  | succ f ih =>
    intro now polls sleeps hM
    by_cases hnow : now < M
    · rw [pollLoop_succ_nonterminal getBuild I M tm f now polls sleeps hnow
        (hrun polls).1 (hrun polls).2.1 (hrun polls).2.2]
      apply ih
      have harg : now + (f + 1) * I = now + I + f * I := by ring
      rw [harg] at hM
      exact hM
    · rw [pollLoop_stop getBuild I M tm now polls sleeps hnow (f + 1)]

/-- Claim C3 (refuted as stated): a poll response whose state label is
`FAILED` but which carries a download URL does NOT fail the poll loop — the
download-URL check precedes the state check, so `pollUntilProtected`
returns that response as a success at the first poll instead of raising
any failure. -/
theorem c3_failed_with_url_is_success :
    pollUntilProtected (fun _ => ⟨"FAILED", "X"⟩) 15 60 5
      = ⟨PollResult.success ⟨"FAILED", "X"⟩, 1, []⟩
  ∧ ∀ m, (pollUntilProtected (fun _ => ⟨"FAILED", "X"⟩) 15 60 5).result
      ≠ PollResult.failed m := by
  refine ⟨by decide, fun m h => ?_⟩
  have h1 : (pollUntilProtected (fun _ => ⟨"FAILED", "X"⟩) 15 60 5).result
      = PollResult.success ⟨"FAILED", "X"⟩ := by decide
  rw [h1] at h
  simp at h

/-- Claim C3 as amended: for every poll response whose state label is
`FAILED` or `ERROR` and which carries no download URL, reached within the
time bound after only non-terminal responses, `pollUntilProtected` fails at
that poll with an error containing the stringified job body, performing no
further polls and no further sleeps. -/
theorem c3_amended_failed_without_url_fatal (getBuild : Nat → Build) (I T fuel n : Nat)
    (hpre : ∀ k, k < n → (getBuild k).protectedUrl = ""
        ∧ (getBuild k).state ≠ "FAILED" ∧ (getBuild k).state ≠ "ERROR")
    (hn : (getBuild n).protectedUrl = ""
        ∧ ((getBuild n).state = "FAILED" ∨ (getBuild n).state = "ERROR"))
    (htime : n * (I * 1000) < T * 60 * 1000)
    (hfuel : n < fuel) :
    pollUntilProtected getBuild I T fuel
      = ⟨PollResult.failed ("zShield build failed: " ++ stringifyBuild (getBuild n)),
          n + 1, List.replicate n (I * 1000)⟩ := by
  unfold pollUntilProtected
  rw [pollLoop_steps getBuild (I * 1000) (T * 60 * 1000) T n fuel 0 0 []
    (fun k hk => by simpa using hpre k hk)
    (fun k hk => by
      have hle : k * (I * 1000) ≤ n * (I * 1000) :=
        Nat.mul_le_mul_right (I * 1000) (Nat.le_of_lt hk)
      omega)
    (by omega)]
  obtain ⟨f, hf⟩ : ∃ f, fuel - n = f + 1 := ⟨fuel - n - 1, by omega⟩
  rw [hf]
  rw [pollLoop_succ_failed getBuild (I * 1000) (T * 60 * 1000) T f (0 + n * (I * 1000))
    (0 + n) (List.replicate n (I * 1000) ++ []) (by omega) (by simpa using hn.1)
    (by simpa using hn.2)]
  simp [buildFailMsg]

/-- Witness for C3's amended theorem: one `RUNNING` poll followed by a
`FAILED` poll without a URL fails at the second poll, after exactly one
sleep, with the job body in the error. -/
theorem c3_amended_failed_without_url_fatal_witness :
    pollUntilProtected (fun k => if k = 0 then ⟨"RUNNING", ""⟩ else ⟨"FAILED", ""⟩) 15 60 5
      = ⟨PollResult.failed ("zShield build failed: " ++ stringifyBuild ⟨"FAILED", ""⟩),
          2, [15000]⟩ :=
  c3_amended_failed_without_url_fatal
    (fun k => if k = 0 then ⟨"RUNNING", ""⟩ else ⟨"FAILED", ""⟩) 15 60 5 1
    (fun k hk => by
      have hk0 : k = 0 := by omega
      subst hk0
      exact ⟨rfl, by decide, by decide⟩)
    ⟨rfl, Or.inl rfl⟩
    (by decide)
    (by decide)

/-- Claim C7: with responses `RUNNING`, `RUNNING`, then one carrying a
download URL, `pollUntilProtected` succeeds after exactly 3 polls with
exactly two suspensions of exactly the configured fixed interval (no
backoff or jitter); and with only `RUNNING` responses for longer than the
configured maximum wait it fails with a timeout error naming the
configured duration. -/
theorem c7_fixed_interval_polling (getBuild : Nat → Build) (I T fuel : Nat) :
    ((getBuild 0) = ⟨"RUNNING", ""⟩ → (getBuild 1) = ⟨"RUNNING", ""⟩ →
     (getBuild 2).protectedUrl ≠ "" →
     2 * (I * 1000) < T * 60 * 1000 → 3 ≤ fuel →
     pollUntilProtected getBuild I T fuel
       = ⟨PollResult.success (getBuild 2), 3, [I * 1000, I * 1000]⟩)
  ∧ ((∀ k, getBuild k = ⟨"RUNNING", ""⟩) → T * 60 * 1000 ≤ fuel * (I * 1000) →
     (pollUntilProtected getBuild I T fuel).result = PollResult.timedOut (timeoutMsg T)) := by
  constructor
  · intro h0 h1 h2 ht hf
    unfold pollUntilProtected
    rw [pollLoop_steps getBuild (I * 1000) (T * 60 * 1000) T 2 fuel 0 0 []
      (fun k hk => by
        interval_cases k
        · simp [h0]
        · simp [h1])
      (fun k hk => by interval_cases k <;> omega)
      (by omega)]
    obtain ⟨f, hf2⟩ : ∃ f, fuel - 2 = f + 1 := ⟨fuel - 3, by omega⟩
    rw [hf2]
    rw [pollLoop_succ_success getBuild (I * 1000) (T * 60 * 1000) T f (0 + 2 * (I * 1000))
      (0 + 2) (List.replicate 2 (I * 1000) ++ []) (by omega) (by simpa using h2)]
    simp
  · intro hall hM
    unfold pollUntilProtected
    apply pollLoop_timeout_all_nonterminal getBuild (I * 1000) (T * 60 * 1000) T
      (fun k => by simp [hall k])
    omega

/-- Witness for C7: interval 15 s and bound 60 min succeed at the third
poll after two 15000 ms sleeps; with a 1-minute bound and only `RUNNING`
responses, polling times out naming the 1-minute bound. -/
theorem c7_fixed_interval_polling_witness :
    pollUntilProtected (fun k => if k < 2 then ⟨"RUNNING", ""⟩ else ⟨"RUNNING", "https://x"⟩)
        15 60 3
      = ⟨PollResult.success ⟨"RUNNING", "https://x"⟩, 3, [15000, 15000]⟩
  ∧ (pollUntilProtected (fun _ => ⟨"RUNNING", ""⟩) 15 1 4).result
      = PollResult.timedOut (timeoutMsg 1) :=
  ⟨(c7_fixed_interval_polling
      (fun k => if k < 2 then ⟨"RUNNING", ""⟩ else ⟨"RUNNING", "https://x"⟩) 15 60 3).1
      rfl rfl (by decide) (by decide) (by decide),
   (c7_fixed_interval_polling (fun _ => ⟨"RUNNING", ""⟩) 15 1 4).2
      (fun _ => rfl) (by decide)⟩

/-- Claim C8 (refuted as stated): a signed-URL response declaring an XML
content type is not treated as markup — only `text/html` is detected.  With
a 2xx status, content type `application/xml`, and a payload passing the ZIP
checks, the download succeeds instead of failing. -/
theorem c8_xml_not_rejected :
    downloadFromSignedUrl "out.apk" "app.apk"
        ⟨200, "application/xml", [0x50, 0x4B, 3, 4]⟩
      = ⟨Except.ok "out.apk", [("out.apk", [0x50, 0x4B, 3, 4])]⟩ := by
  decide

/-- Claim C8 as amended: for every signed-URL download whose response
declares an HTML content type (the declared content type contains
`text/html`), the fetch fails with an error carrying a bounded 1000-byte
prefix of the body, even when the HTTP status is 2xx; other markup types
such as XML are not detected. -/
theorem c8_amended_html_rejected_even_on_2xx (outputFileInput inputFile : String)
    (resp : HttpResponse) (hlo : 200 ≤ resp.status) (hhi : resp.status < 300)
    (hct : strContains resp.contentType "text/html" = true) :
    downloadFromSignedUrl outputFileInput inputFile resp
      = ⟨Except.error ("Signed URL returned HTML (not APK). First bytes:\n"
          ++ bytesHeadString resp.data 1000), []⟩ := by
  have hs : ¬ (resp.status < 200 ∨ 300 ≤ resp.status) := by omega
  simp only [downloadFromSignedUrl]
  rw [if_neg hs, if_pos hct]

/-- Witness for C8's amended theorem: a 2xx response with content type
`text/html` and body `"<h"` is rejected with the 1000-byte body prefix in
the error. -/
theorem c8_amended_html_rejected_even_on_2xx_witness :
    downloadFromSignedUrl "out.apk" "app.apk" ⟨200, "text/html", [0x3C, 0x68]⟩
      = ⟨Except.error ("Signed URL returned HTML (not APK). First bytes:\n"
          ++ bytesHeadString [0x3C, 0x68] 1000), []⟩ :=
  c8_amended_html_rejected_even_on_2xx "out.apk" "app.apk" ⟨200, "text/html", [0x3C, 0x68]⟩
    (by decide) (by decide) (by decide)

/-- Claim C10 (refuted as stated): the ZIP magic check is performed on the
in-memory buffer BEFORE any write to disk, so on a magic-check failure no
file has been written — here a 2xx download whose bytes do not start with
`0x50 0x4B` is fatal and the list of `writeFileSync` effects is empty,
contradicting "the written file exists at the output path". -/
theorem c10_magic_failure_writes_nothing :
    downloadFromSignedUrl "out.apk" "app.apk"
        ⟨200, "application/octet-stream", [1, 2, 3, 4, 5]⟩
      = ⟨Except.error ("Downloaded file is not APK/ZIP. content-type=\"application/octet-stream\" size=5. First bytes:\n\x01\x02\x03\x04\x05"),
          []⟩ := by
  decide

/-- Claim C10 as amended: for every download that reaches artifact
validation (2xx status, non-HTML content type), the first two bytes of the
downloaded buffer are checked against the ZIP magic `0x50 0x4B` before any
write; a failing check is fatal with a printable prefix of the buffer
surfaced and nothing written to disk, and the bytes are written to the
output path only when the check passes. -/
theorem c10_amended_magic_before_write (outputFileInput inputFile : String)
    (resp : HttpResponse) (hlo : 200 ≤ resp.status) (hhi : resp.status < 300)
    (hct : strContains resp.contentType "text/html" = false) :
    ((resp.data.length < 4 ∨ resp.data[0]? ≠ some 0x50 ∨ resp.data[1]? ≠ some 0x4B) →
      downloadFromSignedUrl outputFileInput inputFile resp
        = ⟨Except.error ("Downloaded file is not APK/ZIP. content-type=\""
            ++ resp.contentType ++ "\" size=" ++ toString resp.data.length
            ++ ". First bytes:\n" ++ bytesHeadString resp.data 500), []⟩)
  ∧ (¬ (resp.data.length < 4 ∨ resp.data[0]? ≠ some 0x50 ∨ resp.data[1]? ≠ some 0x4B) →
      downloadFromSignedUrl outputFileInput inputFile resp
        = ⟨Except.ok (if outputFileInput ≠ "" then outputFileInput
              else jsPathBasenameExt inputFile (jsPathExtname inputFile)
                ++ "_zshield_protected.apk"),
            [(if outputFileInput ≠ "" then outputFileInput
              else jsPathBasenameExt inputFile (jsPathExtname inputFile)
                ++ "_zshield_protected.apk", resp.data)]⟩) := by
  have hs : ¬ (resp.status < 200 ∨ 300 ≤ resp.status) := by omega
  have hct' : ¬ (strContains resp.contentType "text/html" = true) := by simp [hct]
  constructor
  · intro hmagic
    simp only [downloadFromSignedUrl]
    rw [if_neg hs, if_neg hct', if_pos hmagic]
  · intro hmagic
    simp only [downloadFromSignedUrl]
    rw [if_neg hs, if_neg hct', if_neg hmagic]

/-- Witness for C10's amended theorem: bytes `[1,2,3,4,5]` fail the magic
check with no write, and bytes `[0x50,0x4B,3,4]` pass and are written to
the output path. -/
theorem c10_amended_magic_before_write_witness :
    downloadFromSignedUrl "out2.apk" "app.apk"
        ⟨200, "application/octet-stream", [1, 2, 3, 4, 5]⟩
      = ⟨Except.error ("Downloaded file is not APK/ZIP. content-type=\""
          ++ "application/octet-stream" ++ "\" size=" ++ toString (5 : Nat)
          ++ ". First bytes:\n" ++ bytesHeadString [1, 2, 3, 4, 5] 500), []⟩
  ∧ downloadFromSignedUrl "out2.apk" "app.apk"
        ⟨200, "application/octet-stream", [0x50, 0x4B, 3, 4]⟩
      = ⟨Except.ok (if ("out2.apk" : String) ≠ "" then "out2.apk"
            else jsPathBasenameExt "app.apk" (jsPathExtname "app.apk")
              ++ "_zshield_protected.apk"),
          [(if ("out2.apk" : String) ≠ "" then "out2.apk"
            else jsPathBasenameExt "app.apk" (jsPathExtname "app.apk")
              ++ "_zshield_protected.apk", [0x50, 0x4B, 3, 4])]⟩ :=
  ⟨(c10_amended_magic_before_write "out2.apk" "app.apk"
      ⟨200, "application/octet-stream", [1, 2, 3, 4, 5]⟩
      (by decide) (by decide) (by decide)).1 (by decide),
   (c10_amended_magic_before_write "out2.apk" "app.apk"
      ⟨200, "application/octet-stream", [0x50, 0x4B, 3, 4]⟩
      (by decide) (by decide) (by decide)).2 (by decide)⟩

/-- Claim C4 (refuted as stated): a run that fails during polling has
already exposed the job-identifier output — the source sets `build_id`
right after submission, before polling.  Here submission returns `"b1"`,
every poll reports `FAILED`, and the failed run's outputs contain
`build_id` (though not `protected_file`), contradicting "exposes neither
output". -/
theorem c4_build_id_exposed_on_poll_failure :
    run ⟨"*.apk", ["app.apk"], Except.ok "t1", [⟨"g1", "G", some ⟨"t1"⟩⟩], "G",
        fun _ => "", fun _ => [], "", "", fun _ _ => "b1",
        fun _ => ⟨"FAILED", ""⟩, some ⟨"n", "https://u"⟩,
        ⟨200, "application/octet-stream", [0x50, 0x4B, 3, 4]⟩, "out.apk", 15, 60, 5⟩
      = ⟨Except.error ("zShield build failed: " ++ stringifyBuild ⟨"FAILED", ""⟩),
          [("build_id", "b1")]⟩ := by
  decide

/- When the glob matched exactly one file, `getMatchingFiles` accepts the
 listing unchanged. -/
theorem getMatchingFiles_ok_of_one (files : List String) (pattern : String)
    (h : files.length = 1) :
    getMatchingFiles files pattern = Except.ok files := by
  unfold getMatchingFiles
  rw [h]
  simp

/-- Claim C4 as amended, stage by stage: a run that fails before or at
submission (glob error, wrong file cardinality, team-resolution error,
group-resolution error, or a submit response with no build identifier)
fails exposing neither output; a run that fails after submission returned
an identifier — during polling (a FAILED/ERROR poll or a timeout), during
the link fetch (null body or missing signed URL), or during the download —
fails exposing exactly the `build_id` output; a run in which every stage
succeeds exposes exactly `build_id` then `protected_file`; and no failing
run ever exposes `protected_file`. -/
theorem c4_amended_output_exposure (env : RunEnv) :
    (((∃ e, getMatchingFiles env.files env.appFilePattern = Except.error e)
        ∨ env.files.length ≠ 1
        ∨ (env.files.length = 1 ∧ ∃ e, env.teamRes = Except.error e)
        ∨ (env.files.length = 1 ∧ ∃ teamId e, env.teamRes = Except.ok teamId
            ∧ resolveGroupId env.groups env.groupNameInput teamId = Except.error e)) →
      (∃ e, (run env).result = Except.error e) ∧ (run env).outputs = [])
  ∧ (∀ teamId groupId,
      env.files.length = 1 →
      env.teamRes = Except.ok teamId →
      resolveGroupId env.groups env.groupNameInput teamId = Except.ok groupId →
      env.submitRespBuildId (env.files.headD "")
          (buildProtectionRequest env.readFileSync env.jsonParse env.protectionJsonFile
            env.protectionJsonInline teamId groupId) = "" →
      (∃ e, (run env).result = Except.error e) ∧ (run env).outputs = [])
  ∧ (∀ teamId groupId bid,
      env.files.length = 1 →
      env.teamRes = Except.ok teamId →
      resolveGroupId env.groups env.groupNameInput teamId = Except.ok groupId →
      bid = env.submitRespBuildId (env.files.headD "")
          (buildProtectionRequest env.readFileSync env.jsonParse env.protectionJsonFile
            env.protectionJsonInline teamId groupId) →
      bid ≠ "" →
      ((∃ e, (pollUntilProtected env.getBuild env.pollIntervalSeconds env.timeoutMinutes
            env.fuel).result = PollResult.failed e
          ∨ (pollUntilProtected env.getBuild env.pollIntervalSeconds env.timeoutMinutes
            env.fuel).result = PollResult.timedOut e)
       ∨ ((∃ b, (pollUntilProtected env.getBuild env.pollIntervalSeconds env.timeoutMinutes
            env.fuel).result = PollResult.success b)
          ∧ (env.linkData = none ∨ ∃ l, env.linkData = some l ∧ l.url = ""))
       ∨ ((∃ b, (pollUntilProtected env.getBuild env.pollIntervalSeconds env.timeoutMinutes
            env.fuel).result = PollResult.success b)
          ∧ ∃ l, env.linkData = some l ∧ l.url ≠ ""
            ∧ ∃ e, (downloadFromSignedUrl env.outputFileInput (env.files.headD "")
                env.dlResp).result = Except.error e)) →
      (∃ e, (run env).result = Except.error e)
        ∧ (run env).outputs = [("build_id", bid)])
  ∧ (∀ teamId groupId bid l p,
      env.files.length = 1 →
      env.teamRes = Except.ok teamId →
      resolveGroupId env.groups env.groupNameInput teamId = Except.ok groupId →
      bid = env.submitRespBuildId (env.files.headD "")
          (buildProtectionRequest env.readFileSync env.jsonParse env.protectionJsonFile
            env.protectionJsonInline teamId groupId) →
      bid ≠ "" →
      (∃ b, (pollUntilProtected env.getBuild env.pollIntervalSeconds env.timeoutMinutes
          env.fuel).result = PollResult.success b) →
      env.linkData = some l →
      l.url ≠ "" →
      (downloadFromSignedUrl env.outputFileInput (env.files.headD "") env.dlResp).result
          = Except.ok p →
      run env = ⟨Except.ok (), [("build_id", bid), ("protected_file", p)]⟩)
  ∧ (∀ e v, (run env).result = Except.error e →
      ("protected_file", v) ∉ (run env).outputs) := by
  refine ⟨?_, ?_, ?_, ?_, ?_⟩
  · rintro (⟨e, he⟩ | hlen | ⟨hlen1, e, he⟩ | ⟨hlen1, teamId, e, hteam, hgroup⟩)
    · refine ⟨⟨e, ?_⟩, ?_⟩ <;> simp [run, he]
    · by_cases h0 : env.files.length = 0
      · refine ⟨⟨"No files found matching pattern: " ++ env.appFilePattern, ?_⟩, ?_⟩ <;>
          simp [run, getMatchingFiles, h0]
      · by_cases h5 : 5 < env.files.length
        · refine ⟨⟨"Pattern matched " ++ toString env.files.length
              ++ " files, exceeds max 5. Narrow the pattern.", ?_⟩, ?_⟩ <;>
            simp [run, getMatchingFiles, h0, h5]
        · have hok : getMatchingFiles env.files env.appFilePattern = Except.ok env.files := by
            unfold getMatchingFiles
            rw [if_neg h0, if_neg (fun h => h5 h)]
          refine ⟨⟨"app_file must resolve to exactly 1 file for zShield Pro. Matched: "
              ++ jsJoin ", " env.files, ?_⟩, ?_⟩ <;> simp [run, hok, hlen]
    · have hok := getMatchingFiles_ok_of_one env.files env.appFilePattern hlen1
      refine ⟨⟨e, ?_⟩, ?_⟩ <;> simp [run, hok, hlen1, he]
    · have hok := getMatchingFiles_ok_of_one env.files env.appFilePattern hlen1
      refine ⟨⟨e, ?_⟩, ?_⟩ <;> simp [run, hok, hlen1, hteam, hgroup]
  · intro teamId groupId hlen1 hteam hgroup hbid
    have hok := getMatchingFiles_ok_of_one env.files env.appFilePattern hlen1
    simp only [List.headD_eq_head?] at hbid
    refine ⟨⟨"Protect response missing buildId: (response body elided)", ?_⟩, ?_⟩ <;>
      simp [run, hok, hlen1, hteam, hgroup, hbid]
  · intro teamId groupId bid hlen1 hteam hgroup hbideq hbidne hstage
    subst hbideq
    have hok := getMatchingFiles_ok_of_one env.files env.appFilePattern hlen1
    simp only [List.headD_eq_head?] at hbidne
    rcases hstage with ⟨e, hpoll | hpoll⟩ | ⟨⟨b, hpoll⟩, hnone | ⟨l, hsome, hurl⟩⟩
        | ⟨⟨b, hpoll⟩, l, hsome, hurlne, e, hdl⟩
    · refine ⟨⟨e, ?_⟩, ?_⟩ <;> simp [run, hok, hlen1, hteam, hgroup, hbidne, hpoll]
    · refine ⟨⟨e, ?_⟩, ?_⟩ <;> simp [run, hok, hlen1, hteam, hgroup, hbidne, hpoll]
    · refine ⟨⟨"Unexpected /protected response: " ++ stringifyLinkData none, ?_⟩, ?_⟩ <;>
        simp [run, hok, hlen1, hteam, hgroup, hbidne, hpoll, hnone]
    · refine ⟨⟨"Unexpected /protected response: " ++ stringifyLinkData (some l), ?_⟩, ?_⟩ <;>
        simp [run, hok, hlen1, hteam, hgroup, hbidne, hpoll, hsome, hurl]
    · simp only [List.headD_eq_head?] at hdl
      refine ⟨⟨e, ?_⟩, ?_⟩ <;>
        simp [run, hok, hlen1, hteam, hgroup, hbidne, hpoll, hsome, hurlne, hdl]
  · intro teamId groupId bid l p hlen1 hteam hgroup hbideq hbidne hpollS hsome hurlne hdlok
    subst hbideq
    obtain ⟨b, hpoll⟩ := hpollS
    have hok := getMatchingFiles_ok_of_one env.files env.appFilePattern hlen1
    simp only [List.headD_eq_head?] at hbidne hdlok
    simp [run, hok, hlen1, hteam, hgroup, hbidne, hpoll, hsome, hurlne, hdlok]
  · intro e v
    unfold run
    dsimp only
    repeat' split
    all_goals dsimp only
    all_goals intro he
    all_goals
      first
      | exact Except.noConfusion he
      | simp

/-- Witness for C4's amended theorem, one concrete run per stage: a glob
that matches nothing exposes neither output; a submit response without a
build identifier exposes neither output; a `FAILED` poll and a bad-magic
download each expose exactly `build_id`; a fully successful run exposes
`build_id` then `protected_file`; and the failing poll run exposes no
`protected_file` output. -/
theorem c4_amended_output_exposure_witness :
    ((∃ e, (run c4EnvPre).result = Except.error e) ∧ (run c4EnvPre).outputs = [])
  ∧ ((∃ e, (run c4EnvNoBuildId).result = Except.error e)
      ∧ (run c4EnvNoBuildId).outputs = [])
  ∧ ((∃ e, (run c4EnvPollFail).result = Except.error e)
      ∧ (run c4EnvPollFail).outputs = [("build_id", "b1")])
  ∧ ((∃ e, (run c4EnvDlFail).result = Except.error e)
      ∧ (run c4EnvDlFail).outputs = [("build_id", "b1")])
  ∧ run c4EnvOk = ⟨Except.ok (), [("build_id", "b1"), ("protected_file", "out.apk")]⟩
  ∧ ("protected_file", "x") ∉ (run c4EnvPollFail).outputs :=
  ⟨(c4_amended_output_exposure c4EnvPre).1
      (Or.inl ⟨"No files found matching pattern: *.apk", by decide⟩),
   (c4_amended_output_exposure c4EnvNoBuildId).2.1 "t1" "g1"
      (by decide) rfl (by decide) rfl,
   (c4_amended_output_exposure c4EnvPollFail).2.2.1 "t1" "g1" "b1"
      (by decide) rfl (by decide) rfl (by decide)
      (Or.inl ⟨"zShield build failed: " ++ stringifyBuild ⟨"FAILED", ""⟩,
        Or.inl (by decide)⟩),
   (c4_amended_output_exposure c4EnvDlFail).2.2.1 "t1" "g1" "b1"
      (by decide) rfl (by decide) rfl (by decide)
      (Or.inr (Or.inr ⟨⟨⟨"DONE", "https://d"⟩, by decide⟩, ⟨"n", "https://u"⟩, rfl,
        by decide,
        "Downloaded file is not APK/ZIP. content-type=\"application/octet-stream\" size=5. First bytes:\n\x01\x02\x03\x04\x05",
        by decide⟩)),
   (c4_amended_output_exposure c4EnvOk).2.2.2.1 "t1" "g1" "b1" ⟨"n", "https://u"⟩ "out.apk"
      (by decide) rfl (by decide) rfl (by decide)
      ⟨⟨"DONE", "https://d"⟩, by decide⟩ rfl (by decide) (by decide),
   (c4_amended_output_exposure c4EnvPollFail).2.2.2.2
      ("zShield build failed: " ++ stringifyBuild ⟨"FAILED", ""⟩) "x" (by decide)⟩

end ZShield
